import Mathlib

/-!
Verification development for the chat-alert extension (src/content.js,
src/background.js).  The detector state machine of content.js is embedded as a
step function over an explicit state record, with setTimeout timers modelled as
explicit deadlines; the background service worker's registry operations are
embedded as pure functions over an association-list session map.
-/

namespace ChatAlert

/-! ## content.js — detector model -/

/-- State name constants (content.js `STATES`). -/
def STATES_IDLE : String := "idle"

def STATES_GENERATING : String := "generating"

def STATES_THINKING : String := "thinking"

def STATES_WRITING : String := "writing"

def STATES_COMPLETED : String := "completed"

/-- JS truthiness of a nullable millisecond timestamp
(`if (generationStartTime)`): `null` and `0` are falsy. -/
def jsTruthy : Option Nat → Bool
  | none => false
  | some n => n != 0

/-- content.js `getAssistantPreview`: first 100 characters of the last
assistant message, with an ellipsis when truncated. -/
def jsPreview (t : String) : String :=
  if t.length ≤ 100 then t else (t.take 100) ++ "..."

/-- Mutable module-level state of the content script.  `cooldownTimer` is
modelled as the absolute deadline at which the pending `setTimeout` fires
(`none` = no pending timer). -/
structure CState where
  isMonitoring : Bool
  wasGenerating : Bool
  cooldownDeadline : Option Nat
  lastAssistantText : String
  generationStartTime : Option Nat
  currentState : String
  stabilityWindowMs : Nat
deriving Repr, DecidableEq

/-- Messages sent to the background worker via `safeSendMessage`. -/
inductive Msg where
  | stateChange (state : String) (generationStartTime : Option Nat)
  | generationComplete (preview : String) (duration : Option Nat)
deriving Repr, DecidableEq

def Msg.isComplete : Msg → Bool
  | .generationComplete _ _ => true
  | _ => false

/-- content.js `determineDetailedState`, as a function of the sampled signals
(`isGenerating()`, `isThinking()`, `getAssistantText()`), the previous tick's
text and whether a cooldown timer is pending. -/
def determineDetailedState (generating thinking : Bool) (content lastText : String)
    (cooldownPending : Bool) : String :=
  if !generating then
    (if cooldownPending then STATES_COMPLETED else STATES_IDLE)
  else if thinking then STATES_THINKING
  else if content.length > 0 && content != lastText then STATES_WRITING
  else STATES_GENERATING

/-- Spec classifier, written from the spec's words (§4.2 step 2): not active →
`Completed` if a stability timer is pending else `Idle`; active and
intermediate → `Thinking`; active and content changed since the previous tick
and non-empty → `Writing`; otherwise `Generating`.  Stated separately so the
code's `determineDetailedState` can be proved to refine it. -/
def specDetailedState (active intermediate : Bool) (content prevContent : String)
    (timerPending : Bool) : String :=
  if !active then (if timerPending then STATES_COMPLETED else STATES_IDLE)
  else if intermediate then STATES_THINKING
  else if content != prevContent && content != ("") then STATES_WRITING
  else STATES_GENERATING

/-- content.js `reportStateChange`: emit a STATE_CHANGE message (carrying the
current `generationStartTime`) only when the state actually changed. -/
def reportStateChange (newState : String) (s : CState) : CState × List Msg :=
  if newState != s.currentState then
    ({ s with currentState := newState }, [Msg.stateChange newState s.generationStartTime])
  else (s, [])

/-- content.js lines 156-166: on a `wasGenerating && !generating` edge, start
the cooldown only when a generation start was observed (`generationStartTime`
truthy); `startCooldown` cancels any pending timer and arms a fresh one of
length `stabilityWindowMs`. -/
def applyStopEdge (now : Nat) (generating : Bool) (s : CState) : CState :=
  if s.wasGenerating && !generating then
    (if jsTruthy s.generationStartTime then
      { s with cooldownDeadline := some (now + s.stabilityWindowMs) }
    else s)
  else s

/-- content.js lines 169-174: on a `!wasGenerating && generating` edge, cancel
any pending cooldown and record `generationStartTime = Date.now()`
(unconditional assignment). -/
def applyStartEdge (now : Nat) (generating : Bool) (s : CState) : CState :=
  if !s.wasGenerating && generating then
    { s with cooldownDeadline := none, generationStartTime := some now }
  else s

/-- content.js `checkState`: one polling tick, given the sampled DOM signals.
Returns the new state and the messages sent during the tick. -/
def checkState (now : Nat) (generating thinking : Bool) (content : String)
    (s : CState) : CState × List Msg :=
  if !s.isMonitoring then (s, [])
  else
    let detailed :=
      determineDetailedState generating thinking content s.lastAssistantText
        s.cooldownDeadline.isSome
    let r1 := reportStateChange detailed s
    let s3 := applyStartEdge now generating (applyStopEdge now generating r1.1)
    ({ s3 with wasGenerating := generating, lastAssistantText := content }, r1.2)

/-- content.js `onGenerationComplete` (with `cooldownTimer` already nulled by
the firing callback): compute the preview from the DOM at fire time, the
duration from `generationStartTime` (null when falsy), clear the start time,
report `completed`, and send GENERATION_COMPLETE. -/
def onGenerationComplete (now : Nat) (domContent : String) (s : CState) :
    CState × List Msg :=
  let preview := jsPreview domContent
  let duration :=
    if jsTruthy s.generationStartTime then some (now - s.generationStartTime.getD 0)
    else none
  let r := reportStateChange STATES_COMPLETED { s with generationStartTime := none }
  (r.1, r.2 ++ [Msg.generationComplete preview duration])

/-- Events driving the detector: a polling tick with its sampled signals, a
`setTimeout` callback firing (a no-op unless an uncancelled cooldown timer has
exactly this deadline), and the 3000 ms grace callback scheduled after a
completion. -/
inductive CEvent where
  | tick (now : Nat) (generating thinking : Bool) (content : String)
  | fire (now : Nat) (domContent : String)
  | grace (generating : Bool)
deriving Repr, DecidableEq

def stepC (s : CState) : CEvent → CState × List Msg
  | .tick now g th content => checkState now g th content s
  | .fire now dom =>
      match s.cooldownDeadline with
      | some d =>
          if d = now then onGenerationComplete now dom { s with cooldownDeadline := none }
          else (s, [])
      | none => (s, [])
  | .grace g =>
      if !g && s.currentState == STATES_COMPLETED then reportStateChange STATES_IDLE s
      else (s, [])

def runState (s : CState) : List CEvent → CState
  | [] => s
  | e :: es => runState (stepC s e).1 es

def runLog (s : CState) : List CEvent → List Msg
  | [] => []
  | e :: es => (stepC s e).2 ++ runLog (stepC s e).1 es

/-- content.js `startMonitoring`: seed `wasGenerating` and `lastAssistantText`
from the DOM; no start observed yet, no pending cooldown. -/
def initC (g0 : Bool) (c0 : String) (w : Nat) : CState :=
  { isMonitoring := true, wasGenerating := g0, cooldownDeadline := none,
    lastAssistantText := c0, generationStartTime := none,
    currentState := STATES_IDLE, stabilityWindowMs := w }

/-- An event is an observed inactive→active edge of `isGenerating()`. -/
def isStartEdge (s : CState) : CEvent → Bool
  | .tick _ g _ _ => s.isMonitoring && !s.wasGenerating && g
  | _ => false

/-- An event is an observed active→inactive edge that arms the cooldown
(start already observed: `generationStartTime` truthy). -/
def isArmedStopEdge (s : CState) : CEvent → Bool
  | .tick _ g _ _ => s.isMonitoring && s.wasGenerating && !g && jsTruthy s.generationStartTime
  | _ => false

def startEdgeIn (s : CState) : List CEvent → Bool
  | [] => false
  | e :: es => isStartEdge s e || startEdgeIn (stepC s e).1 es

def completionIn (s : CState) (es : List CEvent) : Bool :=
  (runLog s es).any Msg.isComplete

/-! ## background.js — validation, settings, completion history -/

/-- A JavaScript number as it may occur in a restored storage snapshot:
a finite (integer-valued) number, or one of the non-finite values. -/
inductive JsNum where
  | int (n : Int)
  | nan
  | inf
  | negInf
deriving Repr, DecidableEq

/-- background.js `VALID_STATES`. -/
def VALID_STATES : List String :=
  [STATES_IDLE, STATES_GENERATING, STATES_THINKING, STATES_WRITING, STATES_COMPLETED]

/-- background.js `normalizeState`: keep a recognized state string, else null.
An absent field (`undefined`) is never in `VALID_STATES`, hence null. -/
def normalizeState (value : Option String) : Option String :=
  match value with
  | some s => if VALID_STATES.contains s then some s else none
  | none => none

/-- background.js `normalizeTimestamp`: `Number(value)` of an absent field is
`NaN` and of `null` is `0`; any non-finite or non-positive number is discarded. -/
def normalizeTimestamp (value : Option JsNum) : Option Int :=
  match value with
  | some (.int n) => if n ≤ 0 then none else some n
  | _ => none

/-- A completion history entry (`{ timestamp, duration, preview }`). -/
structure CompletionEntry where
  timestamp : Nat
  duration : Nat
  preview : String
deriving Repr, DecidableEq

/-- JS `v || dflt` for a nullable number (null, undefined and 0 are falsy). -/
def jsOrNum (v : Option Nat) (dflt : Nat) : Nat :=
  match v with
  | some n => if n != 0 then n else dflt
  | none => dflt

/-- JS `v || dflt` for a nullable string (null, undefined and "" are falsy). -/
def jsOrString (v : Option String) (dflt : String) : String :=
  match v with
  | some s => if s != ("") then s else dflt
  | none => dflt

/-- background.js `addCompletion` (body after the tab lookup): prepend the new
entry with `duration || 0` and `preview || ''`, keep only the first 5. -/
def addCompletion (now : Nat) (preview : Option String) (duration : Option Nat)
    (completions : List CompletionEntry) : List CompletionEntry :=
  let l : List CompletionEntry :=
    { timestamp := now, duration := jsOrNum duration 0,
      preview := jsOrString preview ("") } :: completions
  if l.length > 5 then l.take 5 else l

/-- The entry `addCompletion` stores for one call. -/
def completionEntryOf (op : Nat × Option String × Option Nat) : CompletionEntry :=
  { timestamp := op.1, duration := jsOrNum op.2.2 0, preview := jsOrString op.2.1 ("") }

/-- The completion history produced by a sequence of `addCompletion` calls
starting from the empty history. -/
def historyOf (ops : List (Nat × Option String × Option Nat)) : List CompletionEntry :=
  ops.foldl (fun h op => addCompletion op.1 op.2.1 op.2.2 h) []

/-- The restored ephemeral snapshot for one tab, as stored by
`persistEphemeralFields` (each field may be absent or hold any number). -/
structure EphemeralRecord where
  currentState : Option String
  stateChangedAt : Option JsNum
  lastMessageTime : Option JsNum
  generationStartedAt : Option JsNum
deriving Repr, DecidableEq

/-- background.js `TabInfo` (display-only fields `windowId`, `url`, `title`
omitted: no registry logic reads them). -/
structure TabInfo where
  tabId : Nat
  isMonitored : Bool
  currentState : String
  stateChangedAt : Int
  lastMessageTime : Option Int
  generationStartedAt : Option Int
  completions : List CompletionEntry
deriving Repr, DecidableEq

/-- background.js `createTabInfo`: per-field normalization of the restored
ephemeral snapshot; the baseline is `normalizeTimestamp(tab.lastAccessed) ||
Date.now()`. -/
def createTabInfo (tabId : Nat) (isMonitored : Bool) (eph : Option EphemeralRecord)
    (lastAccessed : Option JsNum) (now : Int) : TabInfo :=
  let existingState := normalizeState (eph.bind (·.currentState))
  let existingStateChangedAt := normalizeTimestamp (eph.bind (·.stateChangedAt))
  let existingLastMessageTime := normalizeTimestamp (eph.bind (·.lastMessageTime))
  let existingGenerationStartedAt := normalizeTimestamp (eph.bind (·.generationStartedAt))
  let baseline := (normalizeTimestamp lastAccessed).getD now
  { tabId := tabId, isMonitored := isMonitored,
    currentState := existingState.getD STATES_IDLE,
    stateChangedAt := existingStateChangedAt.getD baseline,
    lastMessageTime := existingLastMessageTime,
    generationStartedAt := existingGenerationStartedAt,
    completions := [] }

/-- JS truthiness of the registry's nullable `generationStartedAt`. -/
def jsTruthyI : Option Int → Bool
  | none => false
  | some n => n != 0

/-- background.js list literal `['generating', 'thinking', 'writing']` used by
both the STATE_CHANGE handler and `updateGlobalBadge`. -/
def ACTIVE_STATES : List String := [STATES_GENERATING, STATES_THINKING, STATES_WRITING]

/-- background.js STATE_CHANGE handler, generationStartedAt update (lines
420-428): on an active state, set only if not already set, preferring the
message's `generationStartTime` over `Date.now()`; on a non-active state,
clear. -/
def bgStateChangeGst (state : String) (msgGst : Option Int) (now : Int)
    (g : Option Int) : Option Int :=
  if ACTIVE_STATES.contains state then
    (if jsTruthyI g then g else (if jsTruthyI msgGst then msgGst else some now))
  else none

/-! ## background.js — settings sanitizer -/

/-- A JavaScript value as it may occur in a persisted settings record. -/
inductive JSValue where
  | bool (b : Bool)
  | num (q : ℚ)
  | str (s : String)
  | null
  | undef
deriving Repr, DecidableEq

/-- background.js `DEFAULT_SETTINGS`. -/
def DEFAULT_SETTINGS : List (String × JSValue) :=
  [("soundEnabled", .bool true),
   ("soundVolume", .num (1 / 2)),
   ("selectedSound", .str ("success")),
   ("notificationsEnabled", .bool true),
   ("previewLength", .num 100),
   ("autoEnableEnabled", .bool true),
   ("stabilityWindowMs", .num 1500)]

/-- background.js `SETTINGS_KEYS = Object.keys(DEFAULT_SETTINGS)`. -/
def SETTINGS_KEYS : List String := DEFAULT_SETTINGS.map Prod.fst

/-- background.js `sanitizeSettings`: start from the defaults; for a non-object
input (modelled as `none`) return them; otherwise overwrite each recognized key
that the raw record has as an own property with the raw value, unchecked
(`hasOwnProperty` is assoc-list membership, so even `undef` is copied). -/
def sanitizeSettings (raw : Option (List (String × JSValue))) : List (String × JSValue) :=
  match raw with
  | none => DEFAULT_SETTINGS
  | some r =>
      DEFAULT_SETTINGS.map (fun kv => (kv.1, (r.lookup kv.1).getD kv.2))

/-- The range predicate the spec assigns to `soundVolume` (a number in [0,1]),
written from the spec for the refutation of claim C9. -/
def specSoundVolumeValid : JSValue → Bool
  | .num q => decide (0 ≤ q ∧ q ≤ 1)
  | _ => false

/-! ## background.js — notification dispatch on GENERATION_COMPLETE -/

/-- Settings fields read by the GENERATION_COMPLETE handler. -/
structure BgSettings where
  soundEnabled : Bool
  notificationsEnabled : Bool
  previewLength : Nat
deriving Repr, DecidableEq

/-- Externally visible side effects of the handler. -/
inductive BgAction where
  | createNotification (id : String) (message : String)
  | playSound
deriving Repr, DecidableEq

def BgAction.isCreate : BgAction → Bool
  | .createNotification _ _ => true
  | _ => false

def BgAction.isSound : BgAction → Bool
  | .playSound => true
  | _ => false

def pad2 (n : Nat) : String :=
  if n < 10 then ("0") ++ toString n else toString n

/-- background.js `formatDuration`. -/
def formatDuration (ms : Nat) : String :=
  let seconds := ms / 1000
  let mins := seconds / 60
  let secs := seconds % 60
  if mins > 0 then toString mins ++ (":") ++ pad2 secs
  else toString secs ++ ("s")

/-- background.js `showNotification`: the notification id is
`chatgpt-done-${tabId}-${Date.now()}`; the message is the preview truncated to
`previewLength` (when a truthy preview exists and the length setting is
positive) optionally prefixed with the formatted duration. -/
def showNotification (preview : Option String) (tabId : Nat) (duration : Option Nat)
    (now : Nat) (st : BgSettings) : BgAction :=
  let notificationId := ("chatgpt-done-") ++ toString tabId ++ ("-") ++ toString now
  let base := ("Your ChatGPT response is complete!")
  let msg1 :=
    match preview with
    | some p =>
        if p != ("") && st.previewLength > 0 then
          (if p.length > st.previewLength then (p.take st.previewLength) ++ ("...") else p)
        else base
    | none => base
  let msg2 :=
    if jsTruthy duration then
      ("(") ++ formatDuration (duration.getD 0) ++ (") ") ++ msg1
    else msg1
  BgAction.createNotification notificationId msg2

/-- background.js GENERATION_COMPLETE handler, notification/sound side effects
for a sender tab (the `updateTabState`/`addCompletion` bookkeeping is modelled
separately): when the tab is monitored, one notification if enabled and one
sound request if enabled — per delivery, with no deduplication state. -/
def handleGenerationComplete (now : Nat) (tabId : Nat) (preview : Option String)
    (duration : Option Nat) (monitored : Bool) (st : BgSettings) : List BgAction :=
  if monitored then
    (if st.notificationsEnabled then [showNotification preview tabId duration now st] else [])
      ++ (if st.soundEnabled then [BgAction.playSound] else [])
  else []

/-- The actions produced by a sequence of GENERATION_COMPLETE deliveries
`(now, tabId, preview, duration)` against fixed monitoring and settings. -/
def actionsOfDeliveries (evs : List (Nat × Nat × Option String × Option Nat))
    (monitored : Bool) (st : BgSettings) : List BgAction :=
  match evs with
  | [] => []
  | ev :: rest =>
      handleGenerationComplete ev.1 ev.2.1 ev.2.2.1 ev.2.2.2 monitored st
        ++ actionsOfDeliveries rest monitored st

/-! ## background.js — registry and global badge -/

/-- Registry state: the `tabsData` map (association list keyed by tab id,
no duplicate keys are ever inserted) and the currently displayed global badge
text (`""` = cleared). -/
structure Registry where
  tabsData : List (Nat × TabInfo)
  badge : String
deriving Repr, DecidableEq

/-- The aggregate active count `updateGlobalBadge` computes from scratch. -/
def activeCount (tabs : List (Nat × TabInfo)) : Nat :=
  tabs.countP (fun t => ACTIVE_STATES.contains t.2.currentState)

/-- The badge text as a function of the active count: the count when positive,
cleared otherwise. -/
def renderBadge (n : Nat) : String :=
  if n > 0 then toString n else ("")

/-- background.js `updateGlobalBadge`: recompute the active count over the
whole map and set (or clear) the badge. -/
def updateGlobalBadge (r : Registry) : Registry :=
  { r with badge := renderBadge (activeCount r.tabsData) }

/-- `Map.set` on the association list: replace the binding if present,
insert otherwise. -/
def setTab : List (Nat × TabInfo) → Nat → TabInfo → List (Nat × TabInfo)
  | [], id, info => [(id, info)]
  | p :: rest, id, info =>
      if p.1 = id then (id, info) :: rest else p :: setTab rest id info

/-- background.js `updateTabState`: when the tab exists and the state actually
changes, update `currentState` and `stateChangedAt` and refresh the global
badge; otherwise do nothing. -/
def updateTabState (now : Int) (tabId : Nat) (state : String) (r : Registry) :
    Registry :=
  match r.tabsData.lookup tabId with
  | some tab =>
      if tab.currentState != state then
        let tab2 : TabInfo := { tab with currentState := state, stateChangedAt := now }
        updateGlobalBadge { r with tabsData := setTab r.tabsData tabId tab2 }
      else r
  | none => r

/-- background.js `chrome.tabs.onRemoved` / navigate-away cleanup: when the tab
is known, delete it and refresh the global badge. -/
def removeTab (tabId : Nat) (r : Registry) : Registry :=
  if (r.tabsData.lookup tabId).isSome then
    updateGlobalBadge { r with tabsData := r.tabsData.filter (fun p => p.1 != tabId) }
  else r

/-- background.js `chrome.tabs.onUpdated` discovery of a new tab: insert a
fresh `createTabInfo` (no ephemeral snapshot, hence state `idle`); the code
does not touch the badge here. -/
def discoverNewTab (tabId : Nat) (isMonitored : Bool) (lastAccessed : Option JsNum)
    (now : Int) (r : Registry) : Registry :=
  if (r.tabsData.lookup tabId).isSome then r
  else { r with tabsData :=
      (tabId, createTabInfo tabId isMonitored none lastAccessed now) :: r.tabsData }

/-- background.js `initializeTabsData`: discover the current tabs, seeding each
unknown one from its restored ephemeral snapshot, then `updateGlobalBadge`. -/
def initializeTabsData
    (restored : List (Nat × Bool × Option EphemeralRecord × Option JsNum))
    (now : Int) (r : Registry) : Registry :=
  let r2 := restored.foldl (fun acc entry =>
      if (acc.tabsData.lookup entry.1).isSome then acc
      else { acc with tabsData :=
          (entry.1, createTabInfo entry.1 entry.2.1 entry.2.2.1 entry.2.2.2 now)
            :: acc.tabsData }) r
  updateGlobalBadge r2

/-- The registry mutations that touch `tabsData`. -/
inductive RegOp where
  | stateChange (now : Int) (tabId : Nat) (state : String)
  | remove (tabId : Nat)
  | discover (tabId : Nat) (isMonitored : Bool) (lastAccessed : Option JsNum) (now : Int)
  | initData (restored : List (Nat × Bool × Option EphemeralRecord × Option JsNum)) (now : Int)

def applyRegOp (r : Registry) : RegOp → Registry
  | .stateChange now tabId st => updateTabState now tabId st r
  | .remove tabId => removeTab tabId r
  | .discover tabId mon la now => discoverNewTab tabId mon la now r
  | .initData restored now => initializeTabsData restored now r

def runReg (r : Registry) : List RegOp → Registry
  | [] => r
  | op :: ops => runReg (applyRegOp r op) ops

/-- Service-worker start: empty map, empty badge. -/
def initRegistry : Registry := { tabsData := [], badge := ("") }

/-! ## Concrete traces used in counterexamples and witnesses -/

/-- Detector trace refuting the debounce restart (spec Scenario C): start
observed at t=1, stop edge at t=1000 arms the 1500 ms cooldown (deadline 2500),
content changes from "a" to "ab" at the t=2000 tick while the timer is pending,
and the timer fires at t=2500. -/
def c1trace : List CEvent :=
  [CEvent.tick 1 true false (""),
   CEvent.tick 500 true false ("a"),
   CEvent.tick 1000 false false ("a"),
   CEvent.tick 1500 false false ("a"),
   CEvent.tick 2000 false false ("ab"),
   CEvent.fire 2500 ("ab")]

/-- Detector trace with a flicker during the pending stability window: start
observed at t=1, stop edge at t=1000, active again at the t=1500 tick. -/
def c3trace : List CEvent :=
  [CEvent.tick 1 true false (""),
   CEvent.tick 1000 false false ("a"),
   CEvent.tick 1500 true false ("a")]

/-- Detector trace with an observed completion, for the witness of C4. -/
def c4trace : List CEvent :=
  [CEvent.tick 1 true false (""),
   CEvent.tick 1000 false false ("a"),
   CEvent.fire 2500 ("a")]

/-- Raw settings record holding an out-of-range `soundVolume`. -/
def c9raw : List (String × JSValue) := [("soundVolume", JSValue.num 2)]

/-- Settings with both notifications and sound enabled. -/
def c2settings : BgSettings :=
  { soundEnabled := true, notificationsEnabled := true, previewLength := 100 }

/-- Two GENERATION_COMPLETE deliveries for the same tab, one time-unit apart. -/
def c2deliveries : List (Nat × Nat × Option String × Option Nat) :=
  [(1000, 7, some ("hi"), some 1200), (1001, 7, some ("hi"), some 1200)]

/-! ## Helper lemmas -/

theorem length_pos_of_ne_empty {s : String} (h : s ≠ ("")) : s.length > 0 := by
  cases s with
  | mk data =>
      cases data with
      | nil => exact absurd rfl h
      | cons a l => simp [String.length]

/-- Claim C5: the detailed state computed by `determineDetailedState` equals
the spec's four-case classifier, cases evaluated in the same priority order. -/
theorem c5_detailed_state_matches_spec (generating thinking : Bool)
    (content lastText : String) (cooldownPending : Bool) :
    determineDetailedState generating thinking content lastText cooldownPending
      = specDetailedState generating thinking content lastText cooldownPending := by
  unfold determineDetailedState specDetailedState
  by_cases hc : content = ("")
  · subst hc
    cases generating <;> cases thinking <;> cases cooldownPending <;> simp
  · have hlen := length_pos_of_ne_empty hc
    cases generating <;> cases thinking <;> cases cooldownPending <;>
      simp [hc, hlen, Bool.and_comm]

theorem addCompletion_eq_take (now : Nat) (p : Option String) (d : Option Nat)
    (h : List CompletionEntry) :
    addCompletion now p d h = (completionEntryOf (now, p, d) :: h).take 5 := by
  simp only [addCompletion, completionEntryOf]
  split
  · rfl
  · rename_i hgt
    rw [List.take_of_length_le]
    simpa using Nat.not_lt.mp (by simpa using hgt)

theorem take_five_append (A l : List CompletionEntry) :
    (A ++ l.take 5).take 5 = (A ++ l).take 5 := by
  rw [List.take_append_eq_append_take, List.take_append_eq_append_take,
    List.take_take, Nat.min_eq_left (Nat.sub_le 5 A.length)]

theorem historyOf_go (ops : List (Nat × Option String × Option Nat))
    (h : List CompletionEntry) (hlen : h.length ≤ 5) :
    ops.foldl (fun acc op => addCompletion op.1 op.2.1 op.2.2 acc) h
      = ((ops.map completionEntryOf).reverse ++ h).take 5 := by
  induction ops generalizing h with
  | nil => simpa using (List.take_of_length_le hlen).symm
  | cons op rest ih =>
      have hstep : addCompletion op.1 op.2.1 op.2.2 h
          = (completionEntryOf op :: h).take 5 := by
        have := addCompletion_eq_take op.1 op.2.1 op.2.2 h
        simpa using this
      have hstep_len : (addCompletion op.1 op.2.1 op.2.2 h).length ≤ 5 := by
        rw [hstep]; exact List.length_take_le 5 _
      calc (op :: rest).foldl (fun acc o => addCompletion o.1 o.2.1 o.2.2 acc) h
          = rest.foldl (fun acc o => addCompletion o.1 o.2.1 o.2.2 acc)
              (addCompletion op.1 op.2.1 op.2.2 h) := rfl
        _ = ((rest.map completionEntryOf).reverse
              ++ addCompletion op.1 op.2.1 op.2.2 h).take 5 := ih _ hstep_len
        _ = ((rest.map completionEntryOf).reverse
              ++ (completionEntryOf op :: h).take 5).take 5 := by rw [hstep]
        _ = ((rest.map completionEntryOf).reverse ++ (completionEntryOf op :: h)).take 5 :=
            take_five_append _ _
        _ = (((op :: rest).map completionEntryOf).reverse ++ h).take 5 := by
            simp

/-- Claim C6: starting from the empty history, any sequence of `addCompletion`
calls leaves exactly the 5 most recent entries, newest first; in particular the
history never exceeds 5 entries and each call prepends, evicting the oldest
entry when the length would exceed 5. -/
theorem c6_history_bounded_newest_first (ops : List (Nat × Option String × Option Nat)) :
    historyOf ops = ((ops.map completionEntryOf).reverse).take 5
    ∧ (historyOf ops).length ≤ 5 := by
  have h := historyOf_go ops [] (by simp)
  unfold historyOf
  refine ⟨by simpa using h, ?_⟩
  rw [show ops.foldl (fun acc op => addCompletion op.1 op.2.1 op.2.2 acc) [] =
      ((ops.map completionEntryOf).reverse ++ []).take 5 from h]
  exact List.length_take_le 5 _

/-- Claim C10: every entry stored by `addCompletion` is fully defaulted: the
new head entry always carries `duration || 0` and `preview || ''`, so a null
duration is recorded as 0 and a null preview as the empty string. -/
theorem c10_completion_entry_defaults (now : Nat) (p : Option String)
    (d : Option Nat) (h : List CompletionEntry) :
    (addCompletion now p d h).head? = some (completionEntryOf (now, p, d))
    ∧ (addCompletion now none none h).head?
        = some ({ timestamp := now, duration := 0, preview := ("") })
    ∧ jsOrNum none 0 = 0 ∧ jsOrString none ("") = ("") := by
  refine ⟨?_, ?_, rfl, rfl⟩ <;>
    · simp only [addCompletion]
      split <;> simp [completionEntryOf, jsOrNum, jsOrString]

/-- Claim C8: `createTabInfo` validates the restored ephemeral snapshot
per-field: an unrecognized state falls back to `idle` and an invalid
`stateChangedAt` to the baseline `normalizeTimestamp(lastAccessed) || now`,
while each sibling field that passes validation is kept (`lastMessageTime` and
`generationStartedAt` are exactly their own normalizations, independent of the
other fields). -/
theorem c8_per_field_validation (tabId : Nat) (isMonitored : Bool)
    (eph : EphemeralRecord) (lastAccessed : Option JsNum) (now : Int) :
    (normalizeState eph.currentState = none →
      (createTabInfo tabId isMonitored (some eph) lastAccessed now).currentState
        = STATES_IDLE)
    ∧ (∀ s, normalizeState eph.currentState = some s →
      (createTabInfo tabId isMonitored (some eph) lastAccessed now).currentState = s)
    ∧ (normalizeTimestamp eph.stateChangedAt = none →
      (createTabInfo tabId isMonitored (some eph) lastAccessed now).stateChangedAt
        = (normalizeTimestamp lastAccessed).getD now)
    ∧ (∀ n, normalizeTimestamp eph.stateChangedAt = some n →
      (createTabInfo tabId isMonitored (some eph) lastAccessed now).stateChangedAt = n)
    ∧ (createTabInfo tabId isMonitored (some eph) lastAccessed now).lastMessageTime
        = normalizeTimestamp eph.lastMessageTime
    ∧ (createTabInfo tabId isMonitored (some eph) lastAccessed now).generationStartedAt
        = normalizeTimestamp eph.generationStartedAt := by
  refine ⟨?_, ?_, ?_, ?_, rfl, rfl⟩
  · intro h; simp [createTabInfo, h]
  · intro s h; simp [createTabInfo, h]
  · intro h; simp [createTabInfo, h]
  · intro n h; simp [createTabInfo, h]

/-- Witness for C8 at a concrete snapshot: a bogus state string with a valid
`stateChangedAt`, a NaN `lastMessageTime` and a negative
`generationStartedAt`. -/
theorem c8_per_field_validation_witness :
    (createTabInfo 3 true
        (some { currentState := some ("bogus"), stateChangedAt := some (JsNum.int 123),
                lastMessageTime := some JsNum.nan,
                generationStartedAt := some (JsNum.int (-5)) })
        none 999).currentState = STATES_IDLE
    ∧ (createTabInfo 3 true
        (some { currentState := some ("bogus"), stateChangedAt := some (JsNum.int 123),
                lastMessageTime := some JsNum.nan,
                generationStartedAt := some (JsNum.int (-5)) })
        none 999).stateChangedAt = 123
    ∧ (createTabInfo 3 true
        (some { currentState := some ("bogus"), stateChangedAt := some (JsNum.int 123),
                lastMessageTime := some JsNum.nan,
                generationStartedAt := some (JsNum.int (-5)) })
        none 999).lastMessageTime = none
    ∧ (createTabInfo 3 true
        (some { currentState := some ("bogus"), stateChangedAt := some (JsNum.int 123),
                lastMessageTime := some JsNum.nan,
                generationStartedAt := some (JsNum.int (-5)) })
        none 999).generationStartedAt = none := by
  have h := c8_per_field_validation 3 true
      { currentState := some ("bogus"), stateChangedAt := some (JsNum.int 123),
        lastMessageTime := some JsNum.nan,
        generationStartedAt := some (JsNum.int (-5)) } none 999
  refine ⟨h.1 (by decide), ?_, ?_, ?_⟩
  · have := h.2.2.2.1 123 (by decide)
    simpa using this
  · simpa using h.2.2.2.2.1
  · simpa using h.2.2.2.2.2

/-- Claim C9 fails on the code: `sanitizeSettings` copies a recognized key's
value with no type or range check, so `soundVolume: 2` — outside the spec's
required range [0,1] — is kept verbatim. -/
theorem c9_counterexample :
    ((sanitizeSettings (some c9raw)).lookup ("soundVolume")) = some (JSValue.num 2)
    ∧ specSoundVolumeValid (JSValue.num 2) = false := by
  constructor <;> rfl

theorem lookupJS_none (l : List (String × JSValue)) (k : String)
    (h : (l.map Prod.fst).contains k = false) : l.lookup k = none := by
  induction l with
  | nil => rfl
  | cons p rest ih =>
      simp only [List.map_cons, List.contains_cons, Bool.or_eq_false_iff] at h
      simp [List.lookup, h.1, ih h.2]

/-- Claim C9 amended: the sanitizer returns a record with exactly the
recognized option keys; a recognized key present in the input is copied
verbatim with no type or range validation, an absent one gets its default,
unrecognized keys are never copied, and a non-object input yields the pure
defaults. -/
theorem c9_amended_copy_without_validation (r : List (String × JSValue)) :
    ((sanitizeSettings (some r)).map Prod.fst = SETTINGS_KEYS)
    ∧ sanitizeSettings none = DEFAULT_SETTINGS
    ∧ (∀ k : String, SETTINGS_KEYS.contains k = false →
        (sanitizeSettings (some r)).lookup k = none)
    ∧ ((sanitizeSettings (some r)).lookup ("soundEnabled")
        = some ((r.lookup ("soundEnabled")).getD (JSValue.bool true)))
    ∧ ((sanitizeSettings (some r)).lookup ("soundVolume")
        = some ((r.lookup ("soundVolume")).getD (JSValue.num (1 / 2))))
    ∧ ((sanitizeSettings (some r)).lookup ("selectedSound")
        = some ((r.lookup ("selectedSound")).getD (JSValue.str ("success"))))
    ∧ ((sanitizeSettings (some r)).lookup ("notificationsEnabled")
        = some ((r.lookup ("notificationsEnabled")).getD (JSValue.bool true)))
    ∧ ((sanitizeSettings (some r)).lookup ("previewLength")
        = some ((r.lookup ("previewLength")).getD (JSValue.num 100)))
    ∧ ((sanitizeSettings (some r)).lookup ("autoEnableEnabled")
        = some ((r.lookup ("autoEnableEnabled")).getD (JSValue.bool true)))
    ∧ ((sanitizeSettings (some r)).lookup ("stabilityWindowMs")
        = some ((r.lookup ("stabilityWindowMs")).getD (JSValue.num 1500))) := by
  refine ⟨rfl, rfl, ?_, rfl, rfl, rfl, rfl, rfl, rfl, rfl⟩
  intro k hk
  exact lookupJS_none _ _ hk

/-- Witness for the amended C9: with raw input `{soundVolume: 2}`, the
unrecognized key `bogus` is absent from the result while `soundVolume` is
copied verbatim. -/
theorem c9_amended_witness :
    ((sanitizeSettings (some c9raw)).lookup ("bogus") = none)
    ∧ ((sanitizeSettings (some c9raw)).lookup ("soundVolume")
        = some ((c9raw.lookup ("soundVolume")).getD (JSValue.num (1 / 2)))) :=
  ⟨(c9_amended_copy_without_validation c9raw).2.2.1 ("bogus") (by rfl),
   (c9_amended_copy_without_validation c9raw).2.2.2.2.1⟩

theorem renderBadge_cases (n : Nat) :
    renderBadge n = if n = 0 then ("") else toString n := by
  cases n with
  | zero => rfl
  | succ m => simp [renderBadge]

theorem applyRegOp_badge (r : Registry) (op : RegOp)
    (h : r.badge = renderBadge (activeCount r.tabsData)) :
    (applyRegOp r op).badge = renderBadge (activeCount (applyRegOp r op).tabsData) := by
  cases op with
  | stateChange now tabId st =>
      simp only [applyRegOp]
      unfold updateTabState
      split
      · split
        · rfl
        · exact h
      · exact h
  | remove tabId =>
      simp only [applyRegOp, removeTab]
      split
      · rfl
      · exact h
  | discover tabId mon la now =>
      simp only [applyRegOp, discoverNewTab]
      split
      · exact h
      · show r.badge = renderBadge (activeCount
          ((tabId, createTabInfo tabId mon none la now) :: r.tabsData))
        have hcount : activeCount ((tabId, createTabInfo tabId mon none la now) :: r.tabsData)
            = activeCount r.tabsData := by
          have hidle : ACTIVE_STATES.contains
              (createTabInfo tabId mon none la now).currentState = false := rfl
          have hidle2 : (createTabInfo tabId mon none la now).currentState ∉ ACTIVE_STATES := by
            simpa using hidle
          simp [activeCount, List.countP_cons, hidle2]
        rw [hcount]
        exact h
  | initData restored now => rfl

theorem runReg_badge (ops : List RegOp) (r : Registry)
    (h : r.badge = renderBadge (activeCount r.tabsData)) :
    (runReg r ops).badge = renderBadge (activeCount (runReg r ops).tabsData) := by
  induction ops generalizing r with
  | nil => exact h
  | cons op rest ih => exact ih (applyRegOp r op) (applyRegOp_badge r op h)

/-- Claim C7: after any sequence of registry mutations (state changes,
discoveries, removals, restart initialization) starting from a fresh worker,
the displayed badge equals the active count recomputed from scratch over the
session map — the number of sessions in `{generating, thinking, writing}` —
and is cleared exactly when that count is zero. -/
theorem c7_badge_matches_recount (ops : List RegOp) :
    (runReg initRegistry ops).badge =
      (if activeCount (runReg initRegistry ops).tabsData = 0 then ("")
       else toString (activeCount (runReg initRegistry ops).tabsData)) := by
  rw [← renderBadge_cases]
  exact runReg_badge ops initRegistry rfl

theorem handleGenerationComplete_counts (now tabId : Nat) (p : Option String)
    (d : Option Nat) (st : BgSettings) (hn : st.notificationsEnabled = true)
    (hs : st.soundEnabled = true) :
    (handleGenerationComplete now tabId p d true st).countP BgAction.isCreate = 1
    ∧ (handleGenerationComplete now tabId p d true st).countP BgAction.isSound = 1 := by
  simp only [handleGenerationComplete, hn, hs, if_pos rfl, if_true]
  constructor <;> rfl

/-- Claim C2 fails on the code: the GENERATION_COMPLETE handler keeps no
dedupe state, so two deliveries for the same monitored session one time-unit
apart dispatch two notification creations (with distinct ids) and two
sound-play requests, not one. -/
theorem c2_counterexample :
    actionsOfDeliveries c2deliveries true c2settings
      = [BgAction.createNotification ("chatgpt-done-7-1000") ("(1s) hi"),
         BgAction.playSound,
         BgAction.createNotification ("chatgpt-done-7-1001") ("(1s) hi"),
         BgAction.playSound]
    ∧ (actionsOfDeliveries c2deliveries true c2settings).countP BgAction.isCreate = 2
    ∧ (actionsOfDeliveries c2deliveries true c2settings).countP BgAction.isSound = 2 := by
  refine ⟨?_, rfl, rfl⟩
  rfl

/-- Claim C2 amended: each delivery of GENERATION_COMPLETE for a monitored
session with notifications and sound enabled independently dispatches exactly
one notification creation and one sound-play request — n deliveries produce n
of each, with no deduplication (the notification id
`chatgpt-done-{tabId}-{now}` only coincides for same-millisecond
deliveries). -/
theorem c2_amended_one_dispatch_per_delivery
    (evs : List (Nat × Nat × Option String × Option Nat)) (st : BgSettings)
    (hn : st.notificationsEnabled = true) (hs : st.soundEnabled = true) :
    (actionsOfDeliveries evs true st).countP BgAction.isCreate = evs.length
    ∧ (actionsOfDeliveries evs true st).countP BgAction.isSound = evs.length := by
  induction evs with
  | nil => exact ⟨rfl, rfl⟩
  | cons ev rest ih =>
      have hc := handleGenerationComplete_counts ev.1 ev.2.1 ev.2.2.1 ev.2.2.2 st hn hs
      simp only [actionsOfDeliveries, List.countP_append, List.length_cons,
        hc.1, hc.2, ih.1, ih.2]
      omega

/-- Witness for the amended C2: the two one-time-unit-apart deliveries yield
two creations and two sound requests. -/
theorem c2_amended_witness :
    (actionsOfDeliveries c2deliveries true c2settings).countP BgAction.isCreate
        = c2deliveries.length
    ∧ (actionsOfDeliveries c2deliveries true c2settings).countP BgAction.isSound
        = c2deliveries.length :=
  c2_amended_one_dispatch_per_delivery c2deliveries c2settings rfl rfl

@[simp] theorem reportStateChange_isMonitoring (n : String) (s : CState) :
    (reportStateChange n s).1.isMonitoring = s.isMonitoring := by
  unfold reportStateChange; split <;> rfl

@[simp] theorem reportStateChange_wasGenerating (n : String) (s : CState) :
    (reportStateChange n s).1.wasGenerating = s.wasGenerating := by
  unfold reportStateChange; split <;> rfl

@[simp] theorem reportStateChange_cooldownDeadline (n : String) (s : CState) :
    (reportStateChange n s).1.cooldownDeadline = s.cooldownDeadline := by
  unfold reportStateChange; split <;> rfl

@[simp] theorem reportStateChange_generationStartTime (n : String) (s : CState) :
    (reportStateChange n s).1.generationStartTime = s.generationStartTime := by
  unfold reportStateChange; split <;> rfl

@[simp] theorem reportStateChange_stabilityWindowMs (n : String) (s : CState) :
    (reportStateChange n s).1.stabilityWindowMs = s.stabilityWindowMs := by
  unfold reportStateChange; split <;> rfl

@[simp] theorem reportStateChange_noComplete (n : String) (s : CState) :
    (reportStateChange n s).2.any Msg.isComplete = false := by
  unfold reportStateChange; split <;> simp [Msg.isComplete]

@[simp] theorem applyStopEdge_generationStartTime (now : Nat) (g : Bool) (s : CState) :
    (applyStopEdge now g s).generationStartTime = s.generationStartTime := by
  unfold applyStopEdge
  split
  · split <;> rfl
  · rfl

@[simp] theorem applyStopEdge_wasGenerating (now : Nat) (g : Bool) (s : CState) :
    (applyStopEdge now g s).wasGenerating = s.wasGenerating := by
  unfold applyStopEdge
  split
  · split <;> rfl
  · rfl

theorem applyStopEdge_cooldown (now : Nat) (g : Bool) (s : CState)
    (h : ((applyStopEdge now g s).cooldownDeadline).isSome = true) :
    (s.wasGenerating && !g && jsTruthy s.generationStartTime) = true
      ∨ s.cooldownDeadline.isSome = true := by
  unfold applyStopEdge at h
  split at h
  · rename_i h1
    split at h
    · rename_i h2
      exact Or.inl (by simp [Bool.and_eq_true] at h1 ⊢; exact ⟨h1, h2⟩)
    · exact Or.inr h
  · exact Or.inr h

theorem applyStartEdge_cooldown (now : Nat) (g : Bool) (s : CState)
    (h : ((applyStartEdge now g s).cooldownDeadline).isSome = true) :
    s.cooldownDeadline.isSome = true := by
  unfold applyStartEdge at h
  split at h
  · simp at h
  · exact h

theorem applyStartEdge_gst (now : Nat) (g : Bool) (s : CState)
    (h : jsTruthy (applyStartEdge now g s).generationStartTime = true) :
    (!s.wasGenerating && g) = true ∨ jsTruthy s.generationStartTime = true := by
  unfold applyStartEdge at h
  split at h
  · rename_i h1
    exact Or.inl h1
  · exact Or.inr h

theorem stepC_fire_none (now : Nat) (dom : String) (s : CState)
    (hcd : s.cooldownDeadline = none) :
    stepC s (CEvent.fire now dom) = (s, []) := by
  simp [stepC, hcd]

theorem stepC_fire_miss (now : Nat) (dom : String) (s : CState) (d : Nat)
    (hcd : s.cooldownDeadline = some d) (hne : d ≠ now) :
    stepC s (CEvent.fire now dom) = (s, []) := by
  simp [stepC, hcd, hne]

theorem stepC_fire_hit (now : Nat) (dom : String) (s : CState)
    (hcd : s.cooldownDeadline = some now) :
    stepC s (CEvent.fire now dom)
      = onGenerationComplete now dom { s with cooldownDeadline := none } := by
  simp [stepC, hcd]

@[simp] theorem onGenerationComplete_gst (now : Nat) (dom : String) (s : CState) :
    (onGenerationComplete now dom s).1.generationStartTime = none := by
  simp only [onGenerationComplete]
  rw [reportStateChange_generationStartTime]

@[simp] theorem onGenerationComplete_cooldown (now : Nat) (dom : String) (s : CState) :
    (onGenerationComplete now dom s).1.cooldownDeadline = s.cooldownDeadline := by
  simp only [onGenerationComplete]
  rw [reportStateChange_cooldownDeadline]

theorem stepC_cooldown (s : CState) (e : CEvent)
    (h : ((stepC s e).1.cooldownDeadline).isSome = true) :
    isArmedStopEdge s e = true ∨ s.cooldownDeadline.isSome = true := by
  cases e with
  | tick now g th content =>
      simp only [stepC, checkState] at h
      by_cases hm : s.isMonitoring
      · rw [if_neg (by simp [hm])] at h
        simp only at h
        have h2 := applyStartEdge_cooldown _ _ _ h
        have h3 := applyStopEdge_cooldown _ _ _ h2
        rw [reportStateChange_wasGenerating, reportStateChange_generationStartTime,
          reportStateChange_cooldownDeadline] at h3
        cases h3 with
        | inl h4 =>
            refine Or.inl ?_
            simp only [isArmedStopEdge, hm]
            simp [Bool.and_eq_true] at h4 ⊢
            exact ⟨⟨h4.1.1, h4.1.2⟩, h4.2⟩
        | inr h4 => exact Or.inr h4
      · rw [if_pos (by simp [hm])] at h
        exact Or.inr h
  | fire now dom =>
      cases hcd : s.cooldownDeadline with
      | none =>
          rw [stepC_fire_none now dom s hcd] at h
          simp [hcd] at h
      | some d => exact Or.inr rfl
  | grace g =>
      simp only [stepC] at h
      split at h
      · rw [reportStateChange_cooldownDeadline] at h
        exact Or.inr h
      · exact Or.inr h

theorem stepC_gst (s : CState) (e : CEvent)
    (h : jsTruthy ((stepC s e).1.generationStartTime) = true) :
    isStartEdge s e = true ∨ jsTruthy s.generationStartTime = true := by
  cases e with
  | tick now g th content =>
      simp only [stepC, checkState] at h
      by_cases hm : s.isMonitoring
      · rw [if_neg (by simp [hm])] at h
        simp only at h
        have h2 := applyStartEdge_gst _ _ _ h
        rw [applyStopEdge_wasGenerating, reportStateChange_wasGenerating] at h2
        cases h2 with
        | inl h3 =>
            refine Or.inl ?_
            simp only [isStartEdge, hm]
            simp [Bool.and_eq_true] at h3 ⊢
            exact h3
        | inr h3 =>
            rw [applyStopEdge_generationStartTime,
              reportStateChange_generationStartTime] at h3
            exact Or.inr h3
      · rw [if_pos (by simp [hm])] at h
        exact Or.inr h
  | fire now dom =>
      cases hcd : s.cooldownDeadline with
      | none =>
          rw [stepC_fire_none now dom s hcd] at h
          exact Or.inr (by simpa using h)
      | some d =>
          by_cases hdn : d = now
          · subst hdn
            rw [stepC_fire_hit d dom s hcd] at h
            rw [onGenerationComplete_gst] at h
            simp [jsTruthy] at h
          · rw [stepC_fire_miss now dom s d hcd hdn] at h
            exact Or.inr (by simpa using h)
  | grace g =>
      simp only [stepC] at h
      split at h
      · rw [reportStateChange_generationStartTime] at h
        exact Or.inr h
      · exact Or.inr h

theorem stepC_complete_out (s : CState) (e : CEvent)
    (h : ((stepC s e).2.any Msg.isComplete) = true) :
    s.cooldownDeadline.isSome = true := by
  cases e with
  | tick now g th content =>
      simp only [stepC, checkState] at h
      by_cases hm : s.isMonitoring
      · rw [if_neg (by simp [hm])] at h
        simp only at h
        rw [reportStateChange_noComplete] at h
        exact absurd h (by simp)
      · rw [if_pos (by simp [hm])] at h
        simp at h
  | fire now dom =>
      cases hcd : s.cooldownDeadline with
      | none =>
          rw [stepC_fire_none now dom s hcd] at h
          simp at h
      | some d => rfl
  | grace g =>
      simp only [stepC] at h
      split at h
      · rw [reportStateChange_noComplete] at h
        exact absurd h (by simp)
      · simp at h

theorem completion_requires_armed_stop (es : List CEvent) (s : CState)
    (h0 : s.cooldownDeadline = none) (h : completionIn s es = true) :
    ∃ es1 e es2, es = es1 ++ e :: es2
      ∧ isArmedStopEdge (runState s es1) e = true := by
  induction es generalizing s with
  | nil => simp [completionIn, runLog] at h
  | cons e es ih =>
      have hsplit : (stepC s e).2.any Msg.isComplete = true
          ∨ completionIn (stepC s e).1 es = true := by
        simpa [completionIn, runLog, List.any_append, Bool.or_eq_true] using h
      cases hsplit with
      | inl hc =>
          have := stepC_complete_out s e hc
          rw [h0] at this
          simp at this
      | inr hc =>
          by_cases hcd : ((stepC s e).1.cooldownDeadline).isSome = true
          · cases stepC_cooldown s e hcd with
            | inl harm => exact ⟨[], e, es, rfl, by simpa [runState] using harm⟩
            | inr hold =>
                rw [h0] at hold
                simp at hold
          · have hnone : (stepC s e).1.cooldownDeadline = none := by
              cases hcc : (stepC s e).1.cooldownDeadline with
              | none => rfl
              | some d => exact absurd (by simp [hcc]) hcd
            obtain ⟨es1, e2, es2, heq, harm⟩ := ih (stepC s e).1 hnone hc
            exact ⟨e :: es1, e2, es2, by simp [heq], by simpa [runState] using harm⟩

theorem truthy_gst_requires_start (es : List CEvent) (s : CState)
    (h : jsTruthy ((runState s es).generationStartTime) = true) :
    startEdgeIn s es = true ∨ jsTruthy s.generationStartTime = true := by
  induction es generalizing s with
  | nil => exact Or.inr (by simpa [runState] using h)
  | cons e es ih =>
      rw [show runState s (e :: es) = runState (stepC s e).1 es from rfl] at h
      cases ih (stepC s e).1 h with
      | inl hs => exact Or.inl (by simp [startEdgeIn, hs])
      | inr hg =>
          cases stepC_gst s e hg with
          | inl h1 => exact Or.inl (by simp [startEdgeIn, h1])
          | inr h2 => exact Or.inr h2

/-- Claim C4: starting from monitoring start (no pending timer, no observed
start), a GENERATION_COMPLETE message is never emitted unless the trace
contains an armed active→inactive edge — one observed with `generationStartTime`
truthy — that is itself preceded by an observed inactive→active edge; in
particular an active→inactive edge with `generationStartTime` unset arms no
timer and can produce no completion. -/
theorem c4_no_completion_without_observed_start (g0 : Bool) (c0 : String) (w : Nat)
    (es : List CEvent) (h : completionIn (initC g0 c0 w) es = true) :
    ∃ es1 e es2, es = es1 ++ e :: es2
      ∧ isArmedStopEdge (runState (initC g0 c0 w) es1) e = true
      ∧ startEdgeIn (initC g0 c0 w) es1 = true := by
  obtain ⟨es1, e, es2, heq, harm⟩ :=
    completion_requires_armed_stop es (initC g0 c0 w) rfl h
  refine ⟨es1, e, es2, heq, harm, ?_⟩
  have htr : jsTruthy ((runState (initC g0 c0 w) es1).generationStartTime) = true := by
    cases e with
    | tick now g th content =>
        simp only [isArmedStopEdge, Bool.and_eq_true] at harm
        exact harm.2
    | fire now dom => simp [isArmedStopEdge] at harm
    | grace g => simp [isArmedStopEdge] at harm
  cases truthy_gst_requires_start es1 (initC g0 c0 w) htr with
  | inl h1 => exact h1
  | inr h2 => simp [initC, jsTruthy] at h2

/-- Witness for C4: the concrete trace `c4trace` emits a completion, and the
theorem exhibits its armed stop edge preceded by a start edge. -/
theorem c4_witness :
    completionIn (initC false ("") 1500) c4trace = true
    ∧ ∃ es1 e es2, c4trace = es1 ++ e :: es2
        ∧ isArmedStopEdge (runState (initC false ("") 1500) es1) e = true
        ∧ startEdgeIn (initC false ("") 1500) es1 = true :=
  ⟨by decide, c4_no_completion_without_observed_start false ("") 1500 c4trace (by decide)⟩

/-- Claim C1 fails on the code: with `stabilityWindowMs = 1500`, the cooldown
armed by the stop edge at t=1000 keeps its original deadline 2500 across the
t=2000 tick at which `content` changes from "a" to "ab", and the completion is
emitted when the timer fires at t=2500 — earlier than 2000 + 1500, so the
content had not been unchanged for a full window. -/
theorem c1_counterexample :
    (runState (initC false ("") 1500) (c1trace.take 4)).cooldownDeadline = some 2500
    ∧ (runState (initC false ("") 1500) (c1trace.take 4)).lastAssistantText = ("a")
    ∧ (runState (initC false ("") 1500) (c1trace.take 5)).cooldownDeadline = some 2500
    ∧ (runState (initC false ("") 1500) (c1trace.take 5)).lastAssistantText = ("ab")
    ∧ completionIn (initC false ("") 1500) c1trace = true
    ∧ 2500 < 2000 + 1500 := by
  refine ⟨by decide, by decide, by decide, by decide, by decide, by decide⟩

/-- Claim C1 amended: while a stability timer is pending, a change in `content`
does not restart it — a tick with `active = false` and no preceding active
state leaves the deadline untouched whatever the content; the timer is
re-armed (from the current tick time) only by a new active→inactive edge with
an observed start, and completion fires `stabilityWindowMs` after that edge
regardless of intervening content changes. -/
theorem c1_amended_no_content_restart (now : Nat) (th : Bool) (content : String)
    (s : CState) :
    (s.wasGenerating = false →
      (checkState now false th content s).1.cooldownDeadline = s.cooldownDeadline)
    ∧ (s.isMonitoring = true → s.wasGenerating = true →
        jsTruthy s.generationStartTime = true →
      (checkState now false th content s).1.cooldownDeadline
        = some (now + s.stabilityWindowMs)) := by
  constructor
  · intro hw
    by_cases hm : s.isMonitoring
    · simp [checkState, hm, applyStartEdge, applyStopEdge, hw]
    · simp [checkState, hm]
  · intro hm hw ht
    simp [checkState, hm, applyStartEdge, applyStopEdge, hw, ht]

/-- Witness for the amended C1: a pending timer with deadline 2500 survives a
tick whose content differs from the previous tick's snapshot, and a stop edge
re-arms the timer for `now + stabilityWindowMs`. -/
theorem c1_amended_witness :
    (checkState 2000 false false ("ab")
      { isMonitoring := true, wasGenerating := false, cooldownDeadline := some 2500,
        lastAssistantText := ("a"), generationStartTime := some 1,
        currentState := STATES_COMPLETED, stabilityWindowMs := 1500 }).1.cooldownDeadline
      = some 2500
    ∧ (checkState 1000 false false ("a")
      { isMonitoring := true, wasGenerating := true, cooldownDeadline := none,
        lastAssistantText := ("a"), generationStartTime := some 1,
        currentState := STATES_WRITING, stabilityWindowMs := 1500 }).1.cooldownDeadline
      = some 2500 :=
  ⟨(c1_amended_no_content_restart 2000 false ("ab") _).1 rfl,
   (c1_amended_no_content_restart 1000 false ("a") _).2 rfl rfl rfl⟩

/-- Claim C3 fails on the code: in `c3trace` the detector observes a start at
t=1 (`generationStartTime = some 1`), arms the stability timer at t=1000
(deadline 2500, start time still `some 1`), and the inactive→active flicker at
the t=1500 tick — while the timer is pending and the start time non-null —
overwrites `generationStartTime` with 1500 instead of leaving it unchanged. -/
theorem c3_counterexample :
    (runState (initC false ("") 1500) (c3trace.take 2)).generationStartTime = some 1
    ∧ (runState (initC false ("") 1500) (c3trace.take 2)).cooldownDeadline = some 2500
    ∧ (runState (initC false ("") 1500) c3trace).generationStartTime = some 1500 := by
  refine ⟨by decide, by decide, by decide⟩

/-- Claim C3 amended: in the detector, every observed inactive→active edge
unconditionally records `generationStartTime = now`, overwriting any earlier
value (so a flicker during a pending stability window replaces the original
start); it is the background registry's STATE_CHANGE handler that sets
`generationStartedAt` only when currently unset on an active state and clears
it on every non-active state. -/
theorem c3_amended_detector_overwrites :
    (∀ (s : CState) (now : Nat) (th : Bool) (content : String),
      s.isMonitoring = true → s.wasGenerating = false →
      (checkState now true th content s).1.generationStartTime = some now)
    ∧ (∀ (state : String) (msgGst : Option Int) (now : Int) (v : Int),
      ACTIVE_STATES.contains state = true → v ≠ 0 →
      bgStateChangeGst state msgGst now (some v) = some v)
    ∧ (∀ (state : String) (msgGst : Option Int) (now : Int) (g : Option Int),
      ACTIVE_STATES.contains state = false →
      bgStateChangeGst state msgGst now g = none) := by
  refine ⟨?_, ?_, ?_⟩
  · intro s now th content hm hw
    simp [checkState, hm, applyStartEdge, applyStopEdge, hw]
  · intro state msgGst now v hact hv
    have hmem : state ∈ ACTIVE_STATES := by simpa using hact
    simp [bgStateChangeGst, hmem, jsTruthyI, hv]
  · intro state msgGst now g hact
    have hmem : state ∉ ACTIVE_STATES := by simpa using hact
    simp [bgStateChangeGst, hmem]

/-- Witness for the amended C3: the detector overwrites the start time on a
concrete flicker tick; the registry preserves a set `generationStartedAt` on an
active state change and clears it on `idle`. -/
theorem c3_amended_witness :
    (checkState 1500 true false ("a")
      { isMonitoring := true, wasGenerating := false, cooldownDeadline := some 2500,
        lastAssistantText := ("a"), generationStartTime := some 1,
        currentState := STATES_COMPLETED, stabilityWindowMs := 1500 }).1.generationStartTime
      = some 1500
    ∧ bgStateChangeGst STATES_THINKING (some 99) 777 (some 3) = some 3
    ∧ bgStateChangeGst STATES_IDLE (some 99) 777 (some 3) = none :=
  ⟨c3_amended_detector_overwrites.1 _ 1500 false ("a") rfl rfl,
   c3_amended_detector_overwrites.2.1 STATES_THINKING (some 99) 777 3 (by decide)
     (by decide),
   c3_amended_detector_overwrites.2.2 STATES_IDLE (some 99) 777 (some 3) (by decide)⟩

end ChatAlert
